import Mathlib

/-!
Shallow embedding of the GPR-20 VNA acquisition driver
(`src/gpr20_vna_acquisition/vna_driver.py`) and of the sweep-setup request
handler of the ROS node (`src/gpr20_vna_acquisition/vna_node.py`).

Transport fault model. The driver talks to the instrument through the
python-vxi11 library. A call on an established instrument handle (`ask` or
`write`) either succeeds with a response text (writes return no text; the
payload is ignored for them) or raises `vxi11.vxi11.Vxi11Exception`, the
library's communication-failure/timeout exception (a direct subclass of
`Exception`, not of `OSError`). Constructing `Instrument(ip_addr)` and making
first contact can fail with `OSError` (`socket.error`) when the address is
unreachable or refused; `connect_to_vna` catches exactly that class. The
transport `close` has no failure mode in the collaborator contract. Each
driver operation below therefore takes the scripted outcomes of the transport
calls it makes, returns `Except PyExc result` (a raised Python exception is
`Except.error`), the post-state of the driver object, and the list of command
strings issued on the transport in order, including a final failed call.
-/

namespace GPR20

/-- Calibration status constants defined at module level in `vna_driver.py`:
`VNA_CAL_LOW = 0`. -/
def VNA_CAL_LOW : Int := 0

/-- `VNA_CAL_MID = 1`. -/
def VNA_CAL_MID : Int := 1

/-- `VNA_CAL_HIGH = 2`. -/
def VNA_CAL_HIGH : Int := 2

/-- `VNA_CAL_NO_DATA = 3`. -/
def VNA_CAL_NO_DATA : Int := 3

/-- Outcome of one transport call (`ask` or `write`) on an established
instrument handle: success with a response text (ignored for `write`), or a
raised `Vxi11Exception` (communication failure or timeout). -/
inductive CallOutcome where
  | ok (resp : String)
  | commErr
deriving DecidableEq, Repr

/-- Whether the transport call succeeded. -/
def CallOutcome.succeeds : CallOutcome → Bool
  | CallOutcome.ok _ => true
  | CallOutcome.commErr => false

/-- Python exceptions that can escape a driver method on the modelled paths:
`Vxi11Exception` (uncaught where only other classes are handled),
`ValueError` from `int(...)` on non-numeric text, `IndexError` from list
indexing past the end, and `AttributeError` from calling a method on `None`. -/
inductive PyExc where
  | vxi11Exception
  | valueError
  | indexError
  | attributeError
deriving DecidableEq, Repr

/-- Whether a driver call returned a normal Python value rather than raising. -/
def isNormal {α : Type} : Except PyExc α → Bool
  | Except.ok _ => true
  | Except.error _ => false

/-- The mutable attributes of a `VNADriver` object: `__instrument` (transport
handle, identified here by a `Nat` tag; `none` when no handle is held),
`__vna_connected` and `__vna_ip`. -/
structure VNAState where
  instrument : Option Nat
  vna_connected : Bool
  vna_ip : Option String
deriving DecidableEq, Repr

/-- `VNADriver.__init__`: no instrument, not connected, no IP. -/
def VNAState.init : VNAState := ⟨none, false, none⟩

/-- Whitespace as stripped by Python `int(text)` before parsing. -/
def isSpaceChar (c : Char) : Bool :=
  c = ' ' || c = '\t' || c = '\n' || c = '\r'

/-- Strip leading and trailing whitespace from a character list. -/
def pyStrip (l : List Char) : List Char :=
  ((l.dropWhile isSpaceChar).reverse.dropWhile isSpaceChar).reverse

/-- Accumulate a decimal digit string; any non-digit character fails. -/
def parseDigitsAux : List Char → Nat → Option Nat
  | [], acc => some acc
  | c :: cs, acc =>
    if '0' ≤ c ∧ c ≤ '9' then parseDigitsAux cs (acc * 10 + (c.toNat - 48))
    else none

/-- Parse a non-empty decimal digit string. -/
def parseDigits : List Char → Option Nat
  | [] => none
  | l => parseDigitsAux l 0

/-- Python `int(text)`: surrounding whitespace is stripped, then an optional
single sign followed by at least one decimal digit parses to the signed
value; anything else raises `ValueError` (`none` here). (Python additionally
accepts digit-group underscores and non-ASCII digits; no claim depends on
such inputs.) -/
def pyInt (text : String) : Option Int :=
  match pyStrip text.data with
  | '+' :: ds => (parseDigits ds).map (fun n => (n : Int))
  | '-' :: ds => (parseDigits ds).map (fun n => -(n : Int))
  | ds => (parseDigits ds).map (fun n => (n : Int))

/-- Python `str.split(sep)` for a one-character separator, on character
lists: empty input yields one empty field, and empty fields are kept, as in
Python. -/
def splitSep (sep : Char) : List Char → List (List Char)
  | [] => [[]]
  | c :: cs =>
    let r := splitSep sep cs
    if c = sep then [] :: r
    else
      match r with
      | [] => [[c]]
      | g :: gs => (c :: g) :: gs

/-- The identity-response processing of `connect_to_vna`:
`response.replace('"', '').split(',')` — every `"` character is removed and
the rest is split on commas. -/
def idnFields (resp : String) : List (List Char) :=
  splitSep ',' (resp.data.filter (fun c => c != '"'))

/-- `VNADriver.connect_to_vna(ip_addr)`. `openR` is the outcome of
`Instrument(ip_addr)` and first contact: `some h` binds a fresh handle,
`none` means `OSError` was raised there (unreachable / refused), which the
method catches. `askR` is the outcome of the `*IDN?` query on the new handle,
consulted only when the open succeeded; a communication failure there raises
`Vxi11Exception`, which this method does not catch (its handlers cover only
`AssertionError` and `OSError`). The response is stripped of all `"`
characters and split on commas; `response[0]` is checked against `"Anritsu"`
and then `response[1]` against `"MS2026C/2"` — when the list has a single
field equal to `"Anritsu"`, the access `response[1]` raises an uncaught
`IndexError`. Note the assignment `self.__instrument = Instrument(ip_addr)`
happens before any check, so the handle is replaced even on a failed identity
check, while the connected flag and IP are only written on success. -/
def connect_to_vna (s : VNAState) (ip_addr : String) (openR : Option Nat)
    (askR : CallOutcome) : Except PyExc (Bool × String) × VNAState × List String :=
  match openR with
  | none => (Except.ok (false, "VNA connection error!"), s, [])
  | some h =>
    let s1 : VNAState := { s with instrument := some h }
    match askR with
    | CallOutcome.commErr => (Except.error PyExc.vxi11Exception, s1, ["*IDN?"])
    | CallOutcome.ok resp =>
      let fields := idnFields resp
      if fields.headD [] ≠ "Anritsu".data then
        (Except.ok (false, "Different device manufacturer and/or model!"), s1, ["*IDN?"])
      else if 1 < fields.length then
        if fields.getD 1 [] ≠ "MS2026C/2".data then
          (Except.ok (false, "Different device manufacturer and/or model!"), s1, ["*IDN?"])
        else
          (Except.ok (true, "Connected to VNA device"),
            { s1 with vna_connected := true, vna_ip := some ip_addr }, ["*IDN?"])
      else
        (Except.error PyExc.indexError, s1, ["*IDN?"])

/-- The identity responses on which `connect_to_vna`'s two assertion checks
complete without an out-of-range access: either the first comma-separated
field (after quote stripping) differs from `"Anritsu"`, so the first assert
already fails, or there is a second field to check. -/
def idnChecksComplete (resp : String) : Bool :=
  (idnFields resp).headD [] != "Anritsu".data
    || decide (1 < (idnFields resp).length)

/-- `VNADriver.disconnect_from_vna()`: closes the handle when the connected
flag is set (the transport `close` has no failure mode), then always resets
the flag, the IP and the handle and returns `True`. The second component of
the result records whether `close` was issued. -/
def disconnect_from_vna (s : VNAState) : (Bool × VNAState) × Bool :=
  ((true, { instrument := none, vna_connected := false, vna_ip := none }),
    s.vna_connected)

/-- `VNADriver.test_connection()`: asks `*IDN?` and returns `True` on any
response; catches both `Vxi11Exception` and `socket.error` and returns
`False`. With no instrument object the attribute access raises. -/
def test_connection (s : VNAState) (askR : CallOutcome) :
    Except PyExc Bool × VNAState × List String :=
  match s.instrument with
  | none => (Except.error PyExc.attributeError, s, [])
  | some _ =>
    match askR with
    | CallOutcome.ok _ => (Except.ok true, s, ["*IDN?"])
    | CallOutcome.commErr => (Except.ok false, s, ["*IDN?"])

/-- `VNADriver.check_calibration_status()`: asks
`:SENS:CORR:COLL:STAT:ACC?`, parses the response with `int(...)` and maps the
device code (4 to LOW; 3 or 2 to MID; 1 to HIGH; 0 to NO_DATA; anything else
to NO_DATA). Only `Vxi11Exception` is caught (yielding NO_DATA); a
non-integer response makes `int(...)` raise an uncaught `ValueError`. -/
def check_calibration_status (s : VNAState) (askR : CallOutcome) :
    Except PyExc Int × VNAState × List String :=
  match s.instrument with
  | none => (Except.error PyExc.attributeError, s, [])
  | some _ =>
    let cmds := [":SENS:CORR:COLL:STAT:ACC?"]
    match askR with
    | CallOutcome.commErr => (Except.ok VNA_CAL_NO_DATA, s, cmds)
    | CallOutcome.ok resp =>
      match pyInt resp with
      | none => (Except.error PyExc.valueError, s, cmds)
      | some status =>
        if status = 4 then (Except.ok VNA_CAL_LOW, s, cmds)
        else if status = 3 ∨ status = 2 then (Except.ok VNA_CAL_MID, s, cmds)
        else if status = 1 then (Except.ok VNA_CAL_HIGH, s, cmds)
        else if status = 0 then (Except.ok VNA_CAL_NO_DATA, s, cmds)
        else (Except.ok VNA_CAL_NO_DATA, s, cmds)

/-- `VNADriver.set_frequency_sweep(f_start, f_stop, n_points)`: writes
`:SENS:FREQ:STAR`, `:SENS:FREQ:STOP` and `:SENS:SWE:POIN` with the stringified
arguments, in that order, with no value validation; returns `True` when all
three writes succeed and `False` on the first `Vxi11Exception`, issuing no
further write after a failed one. -/
def set_frequency_sweep (s : VNAState) (f_start f_stop n_points : Int)
    (w1 w2 w3 : CallOutcome) : Except PyExc Bool × VNAState × List String :=
  match s.instrument with
  | none => (Except.error PyExc.attributeError, s, [])
  | some _ =>
    let c1 := ":SENS:FREQ:STAR " ++ toString f_start
    let c2 := ":SENS:FREQ:STOP " ++ toString f_stop
    let c3 := ":SENS:SWE:POIN " ++ toString n_points
    match w1 with
    | CallOutcome.commErr => (Except.ok false, s, [c1])
    | CallOutcome.ok _ =>
      match w2 with
      | CallOutcome.commErr => (Except.ok false, s, [c1, c2])
      | CallOutcome.ok _ =>
        match w3 with
        | CallOutcome.commErr => (Except.ok false, s, [c1, c2, c3])
        | CallOutcome.ok _ => (Except.ok true, s, [c1, c2, c3])

/-- `VNADriver.set_trace(n_trace=1, s_param="S21", t_format="SMITh")`: writes
the S-parameter selection and then the format selection for the trace number;
`True` only when both writes succeed, `False` on the first `Vxi11Exception`.
The source's default arguments are passed explicitly by callers here. -/
def set_trace (s : VNAState) (n_trace : Int) (s_param t_format : String)
    (w1 w2 : CallOutcome) : Except PyExc Bool × VNAState × List String :=
  match s.instrument with
  | none => (Except.error PyExc.attributeError, s, [])
  | some _ =>
    let c1 := ":SENS:TRACE" ++ toString n_trace ++ ":SPAR " ++ s_param
    let c2 := ":CALC" ++ toString n_trace ++ ":FORM " ++ t_format
    match w1 with
    | CallOutcome.commErr => (Except.ok false, s, [c1])
    | CallOutcome.ok _ =>
      match w2 with
      | CallOutcome.commErr => (Except.ok false, s, [c1, c2])
      | CallOutcome.ok _ => (Except.ok true, s, [c1, c2])

/-- `VNADriver.get_trace(n_trace)`: a single `:CALC<n>:DATA? SDAT` query;
returns the response verbatim, or `None` on `Vxi11Exception`. -/
def get_trace (s : VNAState) (n_trace : Int) (askR : CallOutcome) :
    Except PyExc (Option String) × VNAState × List String :=
  match s.instrument with
  | none => (Except.error PyExc.attributeError, s, [])
  | some _ =>
    let c := ":CALC" ++ toString n_trace ++ ":DATA? SDAT"
    match askR with
    | CallOutcome.ok resp => (Except.ok (some resp), s, [c])
    | CallOutcome.commErr => (Except.ok none, s, [c])

/-- `VNADriver.get_freq(n_trace)`: a single `:SENSE<n>:FREQ:DATA?` query;
returns the response verbatim, or `None` on `Vxi11Exception`. -/
def get_freq (s : VNAState) (n_trace : Int) (askR : CallOutcome) :
    Except PyExc (Option String) × VNAState × List String :=
  match s.instrument with
  | none => (Except.error PyExc.attributeError, s, [])
  | some _ =>
    let c := ":SENSE" ++ toString n_trace ++ ":FREQ:DATA?"
    match askR with
    | CallOutcome.ok resp => (Except.ok (some resp), s, [c])
    | CallOutcome.commErr => (Except.ok none, s, [c])

/-- Fields of the `VNASweepSetup` service request used by the node handler. -/
structure SweepSetupRequest where
  freq_start : Int
  freq_stop : Int
  freq_points : Int
deriving DecidableEq, Repr

/-- `VNANode.__freq_sweep_setup_handler(srv)`: rejects the request with a
`False` response when `freq_points < 0 or freq_points > 4000`, when
`freq_stop < 0`, or when `freq_start > freq_stop or freq_stop < 0`; otherwise
calls the driver's `set_frequency_sweep`, then `set_trace()` with its default
arguments (discarding that result), and answers with the sweep status. The
last component records whether the driver's `set_frequency_sweep` was
called; `tw1 tw2` script the two `set_trace` writes. -/
def freq_sweep_setup_handler (driver : VNAState) (srv : SweepSetupRequest)
    (w1 w2 w3 tw1 tw2 : CallOutcome) : Except PyExc Bool × VNAState × Bool :=
  if srv.freq_points < 0 ∨ srv.freq_points > 4000 then
    (Except.ok false, driver, false)
  else if srv.freq_stop < 0 then
    (Except.ok false, driver, false)
  else if srv.freq_start > srv.freq_stop ∨ srv.freq_stop < 0 then
    (Except.ok false, driver, false)
  else
    match set_frequency_sweep driver srv.freq_start srv.freq_stop
        srv.freq_points w1 w2 w3 with
    | (Except.error e, s1, _) => (Except.error e, s1, true)
    | (Except.ok status, s1, _) =>
      match set_trace s1 1 "S21" "SMITh" tw1 tw2 with
      | (Except.error e, s2, _) => (Except.error e, s2, true)
      | (Except.ok _, s2, _) => (Except.ok status, s2, true)

/-- C1: for every integer device code returned by the calibration-status
query, `check_calibration_status` maps it exactly as 4 to LOW, 3 to MID, 2 to
MID, 1 to HIGH, 0 to NO_DATA and any other integer to NO_DATA; a transport
failure during the query also yields NO_DATA. -/
theorem C1_calibration_status_mapping (s : VNAState) (h : Nat)
    (hinst : s.instrument = some h) (resp : String) (code : Int)
    (hcode : pyInt resp = some code) :
    ((code = 4 → (check_calibration_status s (CallOutcome.ok resp)).1
        = Except.ok VNA_CAL_LOW) ∧
     (code = 3 → (check_calibration_status s (CallOutcome.ok resp)).1
        = Except.ok VNA_CAL_MID) ∧
     (code = 2 → (check_calibration_status s (CallOutcome.ok resp)).1
        = Except.ok VNA_CAL_MID) ∧
     (code = 1 → (check_calibration_status s (CallOutcome.ok resp)).1
        = Except.ok VNA_CAL_HIGH) ∧
     (code = 0 → (check_calibration_status s (CallOutcome.ok resp)).1
        = Except.ok VNA_CAL_NO_DATA) ∧
     (code ≠ 4 → code ≠ 3 → code ≠ 2 → code ≠ 1 → code ≠ 0 →
        (check_calibration_status s (CallOutcome.ok resp)).1
          = Except.ok VNA_CAL_NO_DATA)) ∧
    (check_calibration_status s CallOutcome.commErr).1
      = Except.ok VNA_CAL_NO_DATA := by
  refine ⟨⟨?_, ?_, ?_, ?_, ?_, ?_⟩, ?_⟩ <;> intros <;>
    simp_all [check_calibration_status]

/-- Witness for C1 at device code 4. -/
theorem C1_calibration_status_mapping_witness :
    (check_calibration_status ⟨some 0, false, none⟩ (CallOutcome.ok "4")).1
      = Except.ok VNA_CAL_LOW :=
  (C1_calibration_status_mapping ⟨some 0, false, none⟩ 0 rfl "4" 4 rfl).1.1 rfl

/-- C10: `check_calibration_status` always returns one of the four module
constants 0 (LOW), 1 (MID), 2 (HIGH), 3 (NO_DATA), never the raw device
code; in particular the encoding is inverted: device code 4 yields the value
0 and device code 1 yields the value 2. -/
theorem C10_constants_inverted_encoding (s : VNAState) (h : Nat)
    (hinst : s.instrument = some h) :
    (∀ askR v, (check_calibration_status s askR).1 = Except.ok v →
      v = VNA_CAL_LOW ∨ v = VNA_CAL_MID ∨ v = VNA_CAL_HIGH
        ∨ v = VNA_CAL_NO_DATA) ∧
    (∀ resp code, pyInt resp = some code →
      (check_calibration_status s (CallOutcome.ok resp)).1 ≠ Except.ok code) ∧
    (∀ resp, pyInt resp = some 4 →
      (check_calibration_status s (CallOutcome.ok resp)).1 = Except.ok 0) ∧
    (∀ resp, pyInt resp = some 1 →
      (check_calibration_status s (CallOutcome.ok resp)).1 = Except.ok 2) := by
  refine ⟨?_, ?_, ?_, ?_⟩
  · intro askR v hv
    cases askR with
    | commErr =>
      simp [check_calibration_status, hinst, VNA_CAL_NO_DATA] at hv
      simp [hv.symm, VNA_CAL_LOW, VNA_CAL_MID, VNA_CAL_HIGH, VNA_CAL_NO_DATA]
    | ok resp =>
      rcases hp : pyInt resp with _ | code <;>
        simp [check_calibration_status, hinst, hp] at hv <;>
        split_ifs at hv <;>
        simp_all [VNA_CAL_LOW, VNA_CAL_MID, VNA_CAL_HIGH, VNA_CAL_NO_DATA]
  · intro resp code hp hv
    simp [check_calibration_status, hinst, hp] at hv
    split_ifs at hv <;>
      simp_all [VNA_CAL_LOW, VNA_CAL_MID, VNA_CAL_HIGH, VNA_CAL_NO_DATA] <;>
      omega
  · intro resp hp
    simp [check_calibration_status, hinst, hp, VNA_CAL_LOW]
  · intro resp hp
    simp [check_calibration_status, hinst, hp, VNA_CAL_HIGH]

/-- Witness for C10 at device code 1 (returned value is the constant 2). -/
theorem C10_constants_inverted_encoding_witness :
    (check_calibration_status ⟨some 0, false, none⟩ (CallOutcome.ok "1")).1
      = Except.ok 2 :=
  (C10_constants_inverted_encoding ⟨some 0, false, none⟩ 0 rfl).2.2.2 "1" rfl

/-- C5: `disconnect_from_vna` always returns True and afterwards the
connected flag is false, the IP is cleared and the handle is nulled,
regardless of prior state; calling it again from the already-disconnected
post-state returns True and leaves the state unchanged (idempotence). -/
theorem C5_disconnect_idempotent (s : VNAState) :
    (disconnect_from_vna s).1.1 = true ∧
    (disconnect_from_vna s).1.2.vna_connected = false ∧
    (disconnect_from_vna s).1.2.vna_ip = none ∧
    (disconnect_from_vna s).1.2.instrument = none ∧
    (disconnect_from_vna ((disconnect_from_vna s).1.2)).1.1 = true ∧
    (disconnect_from_vna ((disconnect_from_vna s).1.2)).1.2
      = (disconnect_from_vna s).1.2 := by
  simp [disconnect_from_vna]

/-- C6: `get_trace` and `get_freq` each issue a single query addressed to the
trace number, return the transport response verbatim on success (an empty
response comes back as the empty string, never as None) and return None on a
communication failure; no retry is attempted. -/
theorem C6_get_trace_get_freq (s : VNAState) (h : Nat)
    (hinst : s.instrument = some h) (n_trace : Int) (resp : String) :
    (get_trace s n_trace (CallOutcome.ok resp)).1 = Except.ok (some resp) ∧
    (get_trace s n_trace CallOutcome.commErr).1 = Except.ok none ∧
    (get_trace s n_trace (CallOutcome.ok resp)).1 ≠ Except.ok none ∧
    (get_trace s n_trace (CallOutcome.ok resp)).2.2
      = [":CALC" ++ toString n_trace ++ ":DATA? SDAT"] ∧
    (get_trace s n_trace CallOutcome.commErr).2.2
      = [":CALC" ++ toString n_trace ++ ":DATA? SDAT"] ∧
    (get_freq s n_trace (CallOutcome.ok resp)).1 = Except.ok (some resp) ∧
    (get_freq s n_trace CallOutcome.commErr).1 = Except.ok none ∧
    (get_freq s n_trace (CallOutcome.ok resp)).1 ≠ Except.ok none ∧
    (get_freq s n_trace (CallOutcome.ok resp)).2.2
      = [":SENSE" ++ toString n_trace ++ ":FREQ:DATA?"] ∧
    (get_freq s n_trace CallOutcome.commErr).2.2
      = [":SENSE" ++ toString n_trace ++ ":FREQ:DATA?"] := by
  simp [get_trace, get_freq, hinst]

/-- Witness for C6: an empty successful response is returned as the empty
string, not as None. -/
theorem C6_get_trace_get_freq_witness :
    (get_trace ⟨some 0, false, none⟩ 1 (CallOutcome.ok "")).1
      = Except.ok (some "") :=
  (C6_get_trace_get_freq ⟨some 0, false, none⟩ 0 rfl 1 "").1

/-- C7: `test_connection` returns True when the identification query receives
any response, False when the transport raises a communication or timeout
failure, and in both cases leaves the connected flag, the stored address and
the transport handle unchanged. -/
theorem C7_test_connection (s : VNAState) (h : Nat)
    (hinst : s.instrument = some h) (resp : String) :
    (test_connection s (CallOutcome.ok resp)).1 = Except.ok true ∧
    (test_connection s CallOutcome.commErr).1 = Except.ok false ∧
    (∀ askR, (test_connection s askR).2.1 = s) := by
  refine ⟨by simp [test_connection, hinst], by simp [test_connection, hinst], ?_⟩
  intro askR
  cases askR <;> simp [test_connection, hinst]

/-- Witness for C7 on a communication failure. -/
theorem C7_test_connection_witness :
    (test_connection ⟨some 0, true, some "1.2.3.4"⟩ CallOutcome.commErr).1
      = Except.ok false :=
  (C7_test_connection ⟨some 0, true, some "1.2.3.4"⟩ 0 rfl "x").2.1

/-- C9: `check_calibration_status`, `set_frequency_sweep`, `set_trace`,
`get_trace` and `get_freq` leave the connected flag, the stored address and
the transport handle unchanged on every session state, every argument and
every transport outcome; these operations contain no assignment to session
state (only connect and disconnect do). -/
theorem C9_non_mutating_operations (s : VNAState) (askR w1 w2 w3 : CallOutcome)
    (n_trace f_start f_stop n_points : Int) (s_param t_format : String) :
    (check_calibration_status s askR).2.1 = s ∧
    (set_frequency_sweep s f_start f_stop n_points w1 w2 w3).2.1 = s ∧
    (set_trace s n_trace s_param t_format w1 w2).2.1 = s ∧
    (get_trace s n_trace askR).2.1 = s ∧
    (get_freq s n_trace askR).2.1 = s := by
  refine ⟨?_, ?_, ?_, ?_, ?_⟩
  · rcases hi : s.instrument with _ | hh
    · simp [check_calibration_status, hi]
    · cases askR with
      | commErr => simp [check_calibration_status, hi]
      | ok resp =>
        simp only [check_calibration_status, hi]
        rcases hp : pyInt resp with _ | code <;> simp [hp]
        split_ifs <;> rfl
  · rcases hi : s.instrument with _ | hh <;>
      cases w1 <;> cases w2 <;> cases w3 <;> simp [set_frequency_sweep, hi]
  · rcases hi : s.instrument with _ | hh <;>
      cases w1 <;> cases w2 <;> simp [set_trace, hi]
  · rcases hi : s.instrument with _ | hh <;>
      cases askR <;> simp [get_trace, hi]
  · rcases hi : s.instrument with _ | hh <;>
      cases askR <;> simp [get_freq, hi]

/-- C4: `set_frequency_sweep` issues exactly three writes in the order start
frequency, stop frequency, point count, with the argument values passed
through unvalidated (any integers, stringified verbatim into the commands);
it returns True exactly when all three writes succeed, and on the first
transport failure it returns False without issuing any subsequent write. -/
theorem C4_set_frequency_sweep_order (s : VNAState) (h : Nat)
    (hinst : s.instrument = some h) (f_start f_stop n_points : Int)
    (w1 w2 w3 : CallOutcome) :
    ((set_frequency_sweep s f_start f_stop n_points w1 w2 w3).1
        = Except.ok true ↔
      w1.succeeds = true ∧ w2.succeeds = true ∧ w3.succeeds = true) ∧
    (w1.succeeds = true → w2.succeeds = true → w3.succeeds = true →
      (set_frequency_sweep s f_start f_stop n_points w1 w2 w3).2.2 =
        [":SENS:FREQ:STAR " ++ toString f_start,
         ":SENS:FREQ:STOP " ++ toString f_stop,
         ":SENS:SWE:POIN " ++ toString n_points]) ∧
    (w1.succeeds = false →
      (set_frequency_sweep s f_start f_stop n_points w1 w2 w3).1
          = Except.ok false ∧
      (set_frequency_sweep s f_start f_stop n_points w1 w2 w3).2.2 =
        [":SENS:FREQ:STAR " ++ toString f_start]) ∧
    (w1.succeeds = true → w2.succeeds = false →
      (set_frequency_sweep s f_start f_stop n_points w1 w2 w3).1
          = Except.ok false ∧
      (set_frequency_sweep s f_start f_stop n_points w1 w2 w3).2.2 =
        [":SENS:FREQ:STAR " ++ toString f_start,
         ":SENS:FREQ:STOP " ++ toString f_stop]) ∧
    (w1.succeeds = true → w2.succeeds = true → w3.succeeds = false →
      (set_frequency_sweep s f_start f_stop n_points w1 w2 w3).1
          = Except.ok false ∧
      (set_frequency_sweep s f_start f_stop n_points w1 w2 w3).2.2 =
        [":SENS:FREQ:STAR " ++ toString f_start,
         ":SENS:FREQ:STOP " ++ toString f_stop,
         ":SENS:SWE:POIN " ++ toString n_points]) := by
  cases w1 <;> cases w2 <;> cases w3 <;>
    simp [set_frequency_sweep, hinst, CallOutcome.succeeds]

/-- Witness for C4: three successful writes yield True, a failure on the
second write yields False. -/
theorem C4_set_frequency_sweep_order_witness :
    (set_frequency_sweep ⟨some 0, false, none⟩ 100 200 300
        (CallOutcome.ok "") (CallOutcome.ok "") (CallOutcome.ok "")).1
      = Except.ok true ∧
    (set_frequency_sweep ⟨some 0, false, none⟩ 100 200 300
        (CallOutcome.ok "") CallOutcome.commErr (CallOutcome.ok "")).1
      = Except.ok false :=
  ⟨(C4_set_frequency_sweep_order ⟨some 0, false, none⟩ 0 rfl 100 200 300
      (CallOutcome.ok "") (CallOutcome.ok "") (CallOutcome.ok "")).1.mpr
      ⟨rfl, rfl, rfl⟩,
   ((C4_set_frequency_sweep_order ⟨some 0, false, none⟩ 0 rfl 100 200 300
      (CallOutcome.ok "") CallOutcome.commErr (CallOutcome.ok "")).2.2.2.1
      rfl rfl).1⟩

/-- C2 counterexample: a malformed (non-integer) calibration-status response
is a transport outcome on which the driver does not return a normal result —
`int("ERR")` raises `ValueError`, which `check_calibration_status` does not
catch (its handler covers only `Vxi11Exception`). -/
theorem C2_counterexample_malformed_response :
    isNormal (check_calibration_status ⟨some 0, true, some "10.0.0.1"⟩
        (CallOutcome.ok "ERR")).1 = false ∧
    (check_calibration_status ⟨some 0, true, some "10.0.0.1"⟩
        (CallOutcome.ok "ERR")).1 = Except.error PyExc.valueError :=
  ⟨rfl, rfl⟩

/-- C2 (amended): every driver operation returns a normal result on every
transport success and on every communication/timeout failure, except that a
malformed (non-integer) calibration-status response propagates a `ValueError`
and that `connect_to_vna` propagates an exception when the identification
query itself fails with a communication error or returns a single-field
identity whose only field is `Anritsu`; `disconnect_from_vna` always returns
a plain boolean (its Lean type has no exception component because no modelled
path raises). -/
theorem C2_amended_no_exception_escape :
    (∀ (s : VNAState) (ip : String) (askR : CallOutcome),
      isNormal (connect_to_vna s ip none askR).1 = true) ∧
    (∀ (s : VNAState) (ip : String) (hnew : Nat) (resp : String),
      idnChecksComplete resp = true →
      isNormal (connect_to_vna s ip (some hnew) (CallOutcome.ok resp)).1
        = true) ∧
    (∀ s : VNAState, (disconnect_from_vna s).1.1 = true) ∧
    (∀ (s : VNAState) (h : Nat), s.instrument = some h →
      ∀ askR, isNormal (test_connection s askR).1 = true) ∧
    (∀ (s : VNAState) (h : Nat), s.instrument = some h →
      isNormal (check_calibration_status s CallOutcome.commErr).1 = true) ∧
    (∀ (s : VNAState) (h : Nat) (resp : String) (code : Int),
      s.instrument = some h → pyInt resp = some code →
      isNormal (check_calibration_status s (CallOutcome.ok resp)).1 = true) ∧
    (∀ (s : VNAState) (h : Nat) (f_start f_stop n_points : Int)
        (w1 w2 w3 : CallOutcome), s.instrument = some h →
      isNormal (set_frequency_sweep s f_start f_stop n_points w1 w2 w3).1
        = true) ∧
    (∀ (s : VNAState) (h : Nat) (n_trace : Int) (s_param t_format : String)
        (w1 w2 : CallOutcome), s.instrument = some h →
      isNormal (set_trace s n_trace s_param t_format w1 w2).1 = true) ∧
    (∀ (s : VNAState) (h : Nat) (n_trace : Int) (askR : CallOutcome),
      s.instrument = some h →
      isNormal (get_trace s n_trace askR).1 = true) ∧
    (∀ (s : VNAState) (h : Nat) (n_trace : Int) (askR : CallOutcome),
      s.instrument = some h →
      isNormal (get_freq s n_trace askR).1 = true) := by
  refine ⟨?_, ?_, ?_, ?_, ?_, ?_, ?_, ?_, ?_, ?_⟩
  · intro s ip askR
    simp [connect_to_vna, isNormal]
  · intro s ip hnew resp hchecks
    simp only [connect_to_vna]
    split_ifs with hc1 hc2 hc3 <;> try rfl
    simp only [idnChecksComplete, Bool.or_eq_true, bne_iff_ne,
      decide_eq_true_eq] at hchecks
    rcases hchecks with hx | hx
    · exact absurd hx hc1
    · exact absurd hx hc2
  · intro s
    simp [disconnect_from_vna]
  · intro s h hinst askR
    cases askR <;> simp [test_connection, hinst, isNormal]
  · intro s h hinst
    simp [check_calibration_status, hinst, isNormal]
  · intro s h resp code hinst hp
    simp only [check_calibration_status, hinst]
    simp [hp]
    split_ifs <;> simp [isNormal]
  · intro s h f_start f_stop n_points w1 w2 w3 hinst
    cases w1 <;> cases w2 <;> cases w3 <;>
      simp [set_frequency_sweep, hinst, isNormal]
  · intro s h n_trace s_param t_format w1 w2 hinst
    cases w1 <;> cases w2 <;> simp [set_trace, hinst, isNormal]
  · intro s h n_trace askR hinst
    cases askR <;> simp [get_trace, hinst, isNormal]
  · intro s h n_trace askR hinst
    cases askR <;> simp [get_freq, hinst, isNormal]

/-- Witness for C2 (amended), one concrete instance per hypothesized
conjunct. -/
theorem C2_amended_no_exception_escape_witness :
    isNormal (connect_to_vna VNAState.init "1.2.3.4" (some 0)
        (CallOutcome.ok "X,Y")).1 = true ∧
    isNormal (test_connection ⟨some 0, false, none⟩ CallOutcome.commErr).1
      = true ∧
    isNormal (check_calibration_status ⟨some 0, false, none⟩
        CallOutcome.commErr).1 = true ∧
    isNormal (check_calibration_status ⟨some 0, false, none⟩
        (CallOutcome.ok "4")).1 = true ∧
    isNormal (set_frequency_sweep ⟨some 0, false, none⟩ 1 2 3
        CallOutcome.commErr (CallOutcome.ok "") (CallOutcome.ok "")).1
      = true ∧
    isNormal (set_trace ⟨some 0, false, none⟩ 1 "S21" "SMITh"
        (CallOutcome.ok "") CallOutcome.commErr).1 = true ∧
    isNormal (get_trace ⟨some 0, false, none⟩ 1 CallOutcome.commErr).1
      = true ∧
    isNormal (get_freq ⟨some 0, false, none⟩ 1 (CallOutcome.ok "F")).1
      = true :=
  ⟨C2_amended_no_exception_escape.2.1 VNAState.init "1.2.3.4" 0 "X,Y" rfl,
   C2_amended_no_exception_escape.2.2.2.1 ⟨some 0, false, none⟩ 0 rfl
     CallOutcome.commErr,
   C2_amended_no_exception_escape.2.2.2.2.1 ⟨some 0, false, none⟩ 0 rfl,
   C2_amended_no_exception_escape.2.2.2.2.2.1 ⟨some 0, false, none⟩ 0 "4" 4
     rfl rfl,
   C2_amended_no_exception_escape.2.2.2.2.2.2.1 ⟨some 0, false, none⟩ 0
     1 2 3 CallOutcome.commErr (CallOutcome.ok "") (CallOutcome.ok "") rfl,
   C2_amended_no_exception_escape.2.2.2.2.2.2.2.1 ⟨some 0, false, none⟩ 0
     1 "S21" "SMITh" (CallOutcome.ok "") CallOutcome.commErr rfl,
   C2_amended_no_exception_escape.2.2.2.2.2.2.2.2.1 ⟨some 0, false, none⟩ 0
     1 CallOutcome.commErr rfl,
   C2_amended_no_exception_escape.2.2.2.2.2.2.2.2.2 ⟨some 0, false, none⟩ 0
     1 (CallOutcome.ok "F") rfl⟩

/-- C3 counterexample: from a connected session, a connect attempt whose
device identity does not match returns `(False, ...)` but does not leave the
session disconnected — the connected flag keeps its prior value True, because
`connect_to_vna` sets the flag only on success and never clears it on
failure. -/
theorem C3_counterexample_mismatch_keeps_connected :
    (connect_to_vna ⟨some 0, true, some "10.0.0.1"⟩ "10.0.0.2" (some 1)
        (CallOutcome.ok "Other,Model")).1
      = Except.ok (false, "Different device manufacturer and/or model!") ∧
    (connect_to_vna ⟨some 0, true, some "10.0.0.1"⟩ "10.0.0.2" (some 1)
        (CallOutcome.ok "Other,Model")).2.1.vna_connected = true :=
  ⟨rfl, rfl⟩

/-- C3 (amended): when the identity string has first field `Anritsu` and
second field `MS2026C/2`, `connect_to_vna` returns `(True, ...)` and leaves
the session connected with the address recorded, from every prior state; for
any other identity string on which the identity checks complete (first field
differs from `Anritsu`, or a second field exists), it returns `(False, ...)`
and leaves the connected flag and the stored address unchanged — in
particular a disconnected session remains disconnected. -/
theorem C3_amended_connect_identity (s : VNAState) (ip_addr : String)
    (hnew : Nat) (resp : String) :
    ((idnFields resp).headD [] = "Anritsu".data →
     (idnFields resp).getD 1 [] = "MS2026C/2".data →
      (connect_to_vna s ip_addr (some hnew) (CallOutcome.ok resp)).1
          = Except.ok (true, "Connected to VNA device") ∧
      (connect_to_vna s ip_addr (some hnew)
          (CallOutcome.ok resp)).2.1.vna_connected = true ∧
      (connect_to_vna s ip_addr (some hnew)
          (CallOutcome.ok resp)).2.1.vna_ip = some ip_addr) ∧
    (¬((idnFields resp).headD [] = "Anritsu".data ∧
       (idnFields resp).getD 1 [] = "MS2026C/2".data) →
     idnChecksComplete resp = true →
      (connect_to_vna s ip_addr (some hnew) (CallOutcome.ok resp)).1
          = Except.ok (false, "Different device manufacturer and/or model!") ∧
      (connect_to_vna s ip_addr (some hnew)
          (CallOutcome.ok resp)).2.1.vna_connected = s.vna_connected ∧
      (connect_to_vna s ip_addr (some hnew)
          (CallOutcome.ok resp)).2.1.vna_ip = s.vna_ip) := by
  constructor
  · intro hhead hsecond
    have hlen : 1 < (idnFields resp).length := by
      by_contra hl
      have hd : (idnFields resp).getD 1 [] = [] := by
        apply List.getD_eq_default
        omega
      rw [hd] at hsecond
      exact absurd hsecond (by decide)
    simp only [connect_to_vna]
    split_ifs
    all_goals first
      | exact ⟨rfl, rfl, rfl⟩
      | (exfalso; simp_all)
  · intro hnot hchecks
    simp only [connect_to_vna]
    split_ifs
    all_goals first
      | exact ⟨rfl, rfl, rfl⟩
      | (exfalso; simp_all [idnChecksComplete])

/-- Witness for C3 (amended): a matching identity connects; a mismatched
identity answers False with the prior (here disconnected) state kept. -/
theorem C3_amended_connect_identity_witness :
    ((connect_to_vna VNAState.init "1.2.3.4" (some 0)
        (CallOutcome.ok "Anritsu,MS2026C/2,SN123")).1
      = Except.ok (true, "Connected to VNA device") ∧
     (connect_to_vna VNAState.init "1.2.3.4" (some 0)
        (CallOutcome.ok "Anritsu,MS2026C/2,SN123")).2.1.vna_connected
      = true) ∧
    (connect_to_vna VNAState.init "1.2.3.4" (some 0)
        (CallOutcome.ok "Foo,Bar")).1
      = Except.ok (false, "Different device manufacturer and/or model!") ∧
    (connect_to_vna VNAState.init "1.2.3.4" (some 0)
        (CallOutcome.ok "Foo,Bar")).2.1.vna_connected
      = VNAState.init.vna_connected :=
  ⟨⟨((C3_amended_connect_identity VNAState.init "1.2.3.4" 0
        "Anritsu,MS2026C/2,SN123").1 rfl rfl).1,
    ((C3_amended_connect_identity VNAState.init "1.2.3.4" 0
        "Anritsu,MS2026C/2,SN123").1 rfl rfl).2.1⟩,
   ((C3_amended_connect_identity VNAState.init "1.2.3.4" 0 "Foo,Bar").2
      (by decide) rfl).1,
   ((C3_amended_connect_identity VNAState.init "1.2.3.4" 0 "Foo,Bar").2
      (by decide) rfl).2.1⟩

/-- C8: at the request start = -5, stop = 10, points = 100 — a negative
start frequency — the node's sweep-setup handler passes validation (its
third check re-tests `freq_stop < 0` instead of the start frequency, despite
the source comment "Checks that start frequency is valid (0-stop)"),
delegates to the driver's `set_frequency_sweep`, and answers with the driver
status True; the claim requires a False response without a driver call. -/
theorem C8_negative_start_passes_validation :
    (freq_sweep_setup_handler ⟨some 0, true, some "10.0.0.1"⟩
        ⟨-5, 10, 100⟩ (CallOutcome.ok "") (CallOutcome.ok "")
        (CallOutcome.ok "") (CallOutcome.ok "") (CallOutcome.ok "")).1
      = Except.ok true ∧
    (freq_sweep_setup_handler ⟨some 0, true, some "10.0.0.1"⟩
        ⟨-5, 10, 100⟩ (CallOutcome.ok "") (CallOutcome.ok "")
        (CallOutcome.ok "") (CallOutcome.ok "") (CallOutcome.ok "")).2.2
      = true :=
  ⟨rfl, rfl⟩

end GPR20
